import Mathlib

/-!
Verification of the NIST SP 800 compliance-update workflow (src/main.py).

The development shallowly embeds the pipeline of `NISTComplianceAgent`:
multi-source retrieval with fallback (`search_nist_updates`), content
extraction (`extract_content`), keyword relevance scoring
(`_keyword_based_relevance`), threshold filtering
(`filter_it_relevant_content`), report rendering
(`_generate_fallback_summary` / `generate_summary`) and the HTTP surface
(`run_workflow`).

Modelling conventions:
* Python dictionaries flowing through the pipeline always carry the keys
  `title`, `url`, `date`, `summary`, `source`; they are `String` fields of
  the `Article` structure.  The `content` key is either absent or a string;
  both are modelled by a `String` field where `""` corresponds to
  "absent or empty" (the code only ever tests its truthiness:
  `'content' in article and article['content']`).  The `relevance_score`
  key is genuinely optional and is modelled as `Option ℚ`.
* Python floats are modelled by `ℚ`; the scores manipulated here are exact
  small rationals and every claim proved concerns order relations that the
  exact-rational reading preserves.  Rational values are built with
  `Rat.divInt` rather than `/`, because the field operations on `ℚ` are
  `@[irreducible]` and would block kernel evaluation of concrete runs;
  bridge lemmas (`rawScore_eq_div`, `triple_eq`, ...) restate them with
  the ordinary operations.
* Network adapters, the content fetcher and the GitHub publisher are
  effectful collaborators; they enter the embedding as explicit function
  parameters (oracles).  A raised-and-caught exception inside an adapter
  is observationally the adapter returning zero results, which the oracle
  can already produce.
* Readings of the wall clock (`datetime.now()`) are an ambient input and
  are passed explicitly as a `Clock` value (its ISO rendering and its
  `%Y-%m-%d %H:%M:%S` rendering).
-/

/-- A pipeline document (the article dictionaries of src/main.py). -/
structure Article where
  title : String
  url : String
  date : String
  summary : String
  source : String
  content : String
  relevance_score : Option ℚ
deriving DecidableEq, Repr

/-! ### Relevance scorer (`_keyword_based_relevance`, main.py lines 346-371) -/

/-- The keyword vocabulary of `_keyword_based_relevance` (main.py lines 351-357). -/
def keywords : List String :=
  ["software", "development", "sdlc", "ci/cd", "devops", "pipeline",
   "container", "cloud", "security", "secure", "sast", "dast", "sbom",
   "supply chain", "cui", "pii", "authentication", "access", "control",
   "nist", "framework", "cybersecurity", "compliance", "controls",
   "sp 800", "800-53", "800-171", "800-218", "ssdf", "guidance"]

/-- Case-folded character sequence of a string (Python `str.lower`). -/
def lowerChars (s : String) : List Char := s.data.map Char.toLower

/-- The text inspected by the scorer:
`f"{title} {summary} {content[:1000]}".lower()` (main.py line 348).
Python slicing is per character, hence `List.take 1000` on the data. -/
def relevanceText (a : Article) : List Char :=
  (a.title.data ++ " ".data ++ a.summary.data ++ " ".data
    ++ a.content.data.take 1000).map Char.toLower

/-- Number of distinct vocabulary keywords occurring as substrings of the
inspected text: `sum(1 for keyword in keywords if keyword in text)`
(main.py line 359). -/
def keywordMatches (a : Article) : ℕ :=
  (keywords.filter (fun k => decide (k.data <:+: relevanceText a))).length

/-- Python `min` on rationals, written so that the kernel can evaluate it. -/
def ratMin (a b : ℚ) : ℚ := if a ≤ b then a else b

/-- Python `max` on rationals, written so that the kernel can evaluate it. -/
def ratMax (a b : ℚ) : ℚ := if a ≤ b then b else a

/-- The intermediate `score = matches / len(keywords)` (main.py line 360),
the exact rational `matches / len(keywords)`; see `rawScore_eq_div`. -/
def rawScore (a : Article) : ℚ :=
  Rat.divInt (keywordMatches a : ℤ) (keywords.length : ℤ)

/-- Python `score * 3` (main.py line 367); `triple_eq` identifies it with
multiplication by 3. -/
def triple (q : ℚ) : ℚ := Rat.divInt (q.num * 3) (q.den : ℤ)

/-- The demo-leniency floor `0.8` of main.py line 364. -/
def demoFloor : ℚ := Rat.divInt 8 10

/-- The relevance-filter threshold `0.7` of main.py line 331. -/
def relevanceThreshold : ℚ := Rat.divInt 7 10

/-- The demo-source test `'demo' in article.get('source', '').lower()`
(main.py line 363). -/
def isDemoSource (a : Article) : Prop :=
  "demo".data <:+: lowerChars a.source

instance (a : Article) : Decidable (isDemoSource a) :=
  inferInstanceAs (Decidable ("demo".data <:+: lowerChars a.source))

/-- `_keyword_based_relevance` (main.py lines 346-371): raw keyword density,
floored at 0.8 for demo-sourced articles, then `min(score * 3, 1.0)`. -/
def keywordBasedRelevance (a : Article) : ℚ :=
  ratMin (triple (if isDemoSource a then ratMax (rawScore a) demoFloor else rawScore a)) 1

/-! ### Relevance filter (`filter_it_relevant_content`, main.py lines 322-338) -/

/-- `filter_it_relevant_content`: keep an article iff its relevance score
exceeds 0.7, annotating it with the score; the loop preserves input order.
`_assess_it_relevance` always delegates to `_keyword_based_relevance`
(main.py lines 340-344). -/
def filter_it_relevant_content : List Article → List Article
  | [] => []
  | a :: rest =>
    if relevanceThreshold < keywordBasedRelevance a then
      { a with relevance_score := some (keywordBasedRelevance a) }
        :: filter_it_relevant_content rest
    else
      filter_it_relevant_content rest

/-! ### Content extractor (`extract_content`, main.py lines 255-274) -/

/-- `extract_content`, with the per-article fetch (`_extract_single_article`,
which returns `""` on any failure and otherwise the extracted text) as an
oracle.  An article with pre-filled content passes through unchanged;
otherwise the fetched content is attached if non-empty and the article is
dropped if the fetch yields nothing. -/
def extract_content (fetch : Article → String) : List Article → List Article
  | [] => []
  | a :: rest =>
    if a.content ≠ "" then
      a :: extract_content fetch rest
    else
      let c := fetch a
      if c ≠ "" then
        { a with content := c } :: extract_content fetch rest
      else
        extract_content fetch rest

/-! ### Retrieval aggregator (`search_nist_updates`, main.py lines 212-253) -/

/-- `Config.NIST_SEARCH_TERMS` (main.py lines 40-44). -/
def NIST_SEARCH_TERMS : List String :=
  ["NIST SP 800-53", "NIST SP 800-171", "NIST SP 800-218",
   "cybersecurity framework", "secure software development",
   "supply chain security", "SSDF"]

/-- The built-in demo corpus of `_get_demo_nist_data` (main.py lines 82-110);
the function returns `demo_articles[:limit]`. -/
def demoArticles : List Article :=
  [{ title := "NIST SP 800-218A: Secure Software Development Framework (SSDF) v1.1",
     url := "https://csrc.nist.gov/publications/detail/sp/800-218a/final",
     date := "2024-12-01",
     summary := "This document provides guidance on implementing secure software development practices throughout the software development life cycle (SDLC), including CI/CD pipeline security, supply chain security, and SBOM requirements.",
     source := "NIST CSRC (Demo)",
     content := "This publication provides updated guidance for implementing secure software development practices, with enhanced focus on CI/CD pipeline security, supply chain security, SBOM requirements, container security, and DevOps integration.",
     relevance_score := none },
   { title := "NIST Cybersecurity Framework 2.0: Updated Implementation Guidance",
     url := "https://csrc.nist.gov/cyberframework/framework",
     date := "2024-11-15",
     summary := "Major update to the NIST Cybersecurity Framework with new guidance for cloud environments, IoT security, and supply chain risk management.",
     source := "NIST CSRC (Demo)",
     content := "The updated framework includes new core functions for cybersecurity governance, cloud security guidance, supply chain subcategories, and expanded coverage for operational technology and IoT.",
     relevance_score := none },
   { title := "NIST SP 800-53 Rev 5: Security Controls for Federal Information Systems",
     url := "https://csrc.nist.gov/publications/detail/sp/800-53/rev-5/final",
     date := "2024-10-30",
     summary := "Updated security controls with new guidance for DevOps, cloud computing, and mobile device security.",
     source := "NIST CSRC (Demo)",
     content := "Security controls for software development environments including continuous monitoring requirements, automated security testing integration, configuration management controls, and access control for development environments.",
     relevance_score := none }]

/-- `_get_demo_nist_data(limit)` returns `demo_articles[:limit]`
(main.py line 110). -/
def getDemoNistData (limit : ℕ) : List Article := demoArticles.take limit

/-- The primary-adapter loop of `search_nist_updates` (main.py lines
225-232): one `_search_nist_csrc(term, max_results // 3)` call per term,
accumulating, with an early break once `max_results` articles have been
accumulated.  The scraping adapter is the oracle `csrc`; an exception in a
call behaves as that call returning `[]`. -/
def csrcSearchLoop (csrc : String → ℕ → List Article) (maxResults : ℕ) :
    List String → List Article → List Article
  | [], acc => acc
  | t :: ts, acc =>
    let acc2 := acc ++ csrc t (maxResults / 3)
    if maxResults ≤ acc2.length then acc2
    else csrcSearchLoop csrc maxResults ts acc2

/-- `search_nist_updates(topic, max_results)` (main.py lines 212-253).
`csrc` is the primary scraped adapter (`_search_nist_csrc`); `google` is
the secondary search adapter (`_google_search_nist`), present exactly when
both Google credentials are configured (otherwise the code skips the call).
Control flow: primary loop over the first 3 search terms, then the
secondary adapter for the shortfall, then the demo fallback for the
shortfall, then a full demo retry if still empty, then truncation. -/
def search_nist_updates (csrc : String → ℕ → List Article)
    (google : Option (Option String → ℕ → List Article))
    (topic : Option String) (maxResults : ℕ) : List Article :=
  let searchTerms := NIST_SEARCH_TERMS ++ topic.toList
  let articles := csrcSearchLoop csrc maxResults (searchTerms.take 3) []
  let articles :=
    match google with
    | some g =>
        if articles.length < maxResults then
          articles ++ g topic (maxResults - articles.length)
        else articles
    | none => articles
  let articles :=
    if articles.length < maxResults then
      articles ++ getDemoNistData (maxResults - articles.length)
    else articles
  let articles := if articles.length = 0 then getDemoNistData maxResults else articles
  articles.take maxResults

/-! ### Report renderer (`_generate_fallback_summary`, main.py lines 380-443)

`generate_summary` (lines 373-378) always delegates to
`_generate_fallback_summary`.  The renderer reads the wall clock for the
header (ISO form and `%Y-%m-%d %H:%M:%S` form) and the footer; those
readings are the `Clock` parameter.  Formatting
`article.get('relevance_score', 'N/A')` with `:.2f` raises a `ValueError`
when the key is absent (the default is the string "N/A"), so rendering is
total only on fully scored inputs; the embedding returns `none` there. -/

/-- The clock readings a single renderer invocation makes:
`datetime.now().isoformat()` and `datetime.now().strftime('%Y-%m-%d %H:%M:%S')`. -/
structure Clock where
  iso : String
  fmt : String
deriving DecidableEq, Repr

/-- Fixed-point 2-decimal rendering of a score, modelling Python's `:.2f`
format applied to the (nonnegative) relevance scores. -/
def formatFixed2 (q : ℚ) : String :=
  let n : ℤ := round (q * 100)
  toString (n / 100) ++ "." ++
    (if (n % 100).natAbs < 10 then "0" else "") ++ toString (n % 100).natAbs

/-- The YAML-frontmatter header of the report (main.py lines 382-396). -/
def headerStr (clock : Clock) (n : ℕ) : String :=
  "---\ntitle: \"NIST SP 800 Compliance Update Summary\"\ndate: \""
    ++ clock.iso
    ++ "\"\narticles_processed: " ++ toString n
    ++ "\ngenerated_by: \"NIST Compliance Workflow Agent\"\n---\n\n"
    ++ "# NIST SP 800 Compliance Update Summary\n\n**Generated:** "
    ++ clock.fmt
    ++ "\n**Articles Processed:** " ++ toString n
    ++ "\n\n## Latest Updates\n\n"

/-- One numbered finding block (main.py lines 398-408), given the article's
relevance score `x`. -/
def findingBlockWith (i : ℕ) (a : Article) (x : ℚ) : String :=
  "\n### " ++ toString i ++ ". " ++ a.title
    ++ "\n\n- **URL:** " ++ a.url
    ++ "\n- **Date:** " ++ a.date
    ++ "\n- **Source:** " ++ a.source
    ++ "\n- **Relevance Score:** " ++ formatFixed2 x
    ++ "\n- **Summary:** " ++ a.summary
    ++ "\n\n"

/-- The finding-block loop (`for i, article in enumerate(articles, 1)`,
main.py line 398).  Fails (Python: raises `ValueError`) at an article whose
`relevance_score` is absent, since `'N/A':.2f` is an invalid format. -/
def renderFindings : ℕ → List Article → Option String
  | _, [] => some ""
  | i, a :: rest =>
    match a.relevance_score with
    | none => none
    | some x =>
      match renderFindings (i + 1) rest with
      | none => none
      | some s => some (findingBlockWith i a x ++ s)

/-- The fixed recommendations / next-steps / citations-heading boilerplate
(main.py lines 410-432). -/
def recommendationsStr : String :=
  "\n## Key Recommendations for IT Teams\n\n"
    ++ "Based on the analyzed NIST updates, consider the following actions:\n\n"
    ++ "- [ ] **Review Security Controls**: Assess current implementation of NIST SP 800-53 controls\n"
    ++ "- [ ] **Update SDLC Processes**: Integrate new secure development practices from SP 800-218\n"
    ++ "- [ ] **Enhance CI/CD Security**: Implement automated security testing in development pipelines\n"
    ++ "- [ ] **Supply Chain Assessment**: Review third-party components and implement SBOM practices\n"
    ++ "- [ ] **Access Control Review**: Update authentication and authorization mechanisms\n"
    ++ "- [ ] **Incident Response**: Revise incident response procedures based on new guidance\n\n"
    ++ "## Next Steps\n\n"
    ++ "1. Review each publication in detail\n"
    ++ "2. Conduct gap analysis against current practices\n"
    ++ "3. Develop implementation roadmap\n"
    ++ "4. Train development teams on new requirements\n"
    ++ "5. Update security policies and procedures\n\n"
    ++ "## Source Citations\n\n"

/-- One numbered citation entry (main.py lines 434-435). -/
def citationLine (i : ℕ) (a : Article) : String :=
  toString i ++ ". [" ++ a.title ++ "](" ++ a.url ++ ")\n"

/-- The citation loop (`for i, article in enumerate(articles, 1)`,
main.py line 434). -/
def citationsFrom : ℕ → List Article → String
  | _, [] => ""
  | i, a :: rest => citationLine i a ++ citationsFrom (i + 1) rest

/-- The trailing generation-timestamp footer (main.py lines 437-441). -/
def footerStr (clock : Clock) : String :=
  "\n\n---\n*This summary was generated automatically by the NIST Compliance Workflow Agent on "
    ++ clock.fmt ++ "*\n"

/-- `_generate_fallback_summary(articles)` (main.py lines 380-443):
header, finding blocks in input order, fixed recommendations, citations in
input order, footer.  `none` models the `ValueError` raised when some
article lacks `relevance_score`. -/
def generateFallbackSummary (clock : Clock) (articles : List Article) : Option String :=
  match renderFindings 1 articles with
  | none => none
  | some findings =>
      some (headerStr clock articles.length ++ findings ++ recommendationsStr
        ++ citationsFrom 1 articles ++ footerStr clock)

/-- `generate_summary` (main.py lines 373-378) always uses the fallback
renderer. -/
def generate_summary (clock : Clock) (articles : List Article) : Option String :=
  generateFallbackSummary clock articles

/-! ### Request surface (`run_workflow`, main.py lines 522-578) -/

/-- The `WorkflowResponse` pydantic model (main.py lines 51-55). -/
structure WorkflowResponse where
  status : String
  summary_url : String
  pr_url : String
  articles_processed : ℕ
deriving DecidableEq, Repr

/-- The exceptions arising inside the workflow body: `HTTPException`
(fastapi/starlette, carrying a status code and a detail) and the
`ValueError` raised by the `:.2f` format applied to the string "N/A". -/
inductive PyExc where
  | httpExc (statusCode : ℕ) (detail : String)
  | valueError (msg : String)
deriving DecidableEq, Repr

deriving instance DecidableEq for Except

/-- Python `str(e)`: starlette's `HTTPException.__str__` renders
`f"{status_code}: {detail}"`; `str` of a `ValueError` is its message. -/
def strOfPyExc : PyExc → String
  | .httpExc s d => toString s ++ ": " ++ d
  | .valueError m => m

/-- The `try:`-block body of `run_workflow` (main.py lines 533-574):
search, 404 on zero retrieved, extract, filter, 404 on zero relevant,
summary generation, then the publish step.  `publish` is the GitHub
collaborator, present exactly when a GitHub client is configured; a publish
failure degrades to a success response with placeholder locations. -/
def run_workflow_body (csrc : String → ℕ → List Article)
    (google : Option (Option String → ℕ → List Article))
    (fetch : Article → String)
    (publish : Option (String → List Article → Except PyExc (String × String)))
    (clock : Clock) (topic : Option String) (maxArticles : ℕ) :
    Except PyExc WorkflowResponse :=
  let articles := search_nist_updates csrc google topic maxArticles
  if articles.isEmpty then
    .error (.httpExc 404 "No NIST updates found")
  else
    let articlesWithContent := extract_content fetch articles
    let relevantArticles := filter_it_relevant_content articlesWithContent
    if relevantArticles.isEmpty then
      .error (.httpExc 404 "No relevant articles found for IT organizations")
    else
      match generate_summary clock relevantArticles with
      | none => .error (.valueError "Unknown format code 'f' for object of type 'str'")
      | some summary =>
          match publish with
          | some pub =>
              match pub summary relevantArticles with
              | .ok (summaryUrl, prUrl) =>
                  .ok ⟨"success", summaryUrl, prUrl, relevantArticles.length⟩
              | .error _ =>
                  .ok ⟨"success",
                       "GitHub publishing failed - summary generated successfully",
                       "GitHub publishing failed - summary generated successfully",
                       relevantArticles.length⟩
          | none =>
              .ok ⟨"success",
                   "GitHub not configured - summary generated successfully",
                   "GitHub not configured - no PR created",
                   relevantArticles.length⟩

/-- `run_workflow` (main.py lines 522-578).  The broad
`except Exception as e: raise HTTPException(status_code=500, detail=str(e))`
catches every exception escaping the body — including the two
`HTTPException(404, ...)` raised inside the `try:` block, since fastapi's
`HTTPException` subclasses `Exception` — and re-raises it as a 500. -/
def run_workflow (csrc : String → ℕ → List Article)
    (google : Option (Option String → ℕ → List Article))
    (fetch : Article → String)
    (publish : Option (String → List Article → Except PyExc (String × String)))
    (clock : Clock) (topic : Option String) (maxArticles : ℕ) :
    Except PyExc WorkflowResponse :=
  match run_workflow_body csrc google fetch publish clock topic maxArticles with
  | .ok r => .ok r
  | .error e => .error (.httpExc 500 (strOfPyExc e))

/-! ### Concrete sample data used by witnesses and counterexamples -/

/-- A minimal non-demo article whose only matching keyword is "nist". -/
def nistTitledArticle : Article :=
  { title := "nist", url := "u", date := "d", summary := "", source := "src",
    content := "", relevance_score := none }

/-- An article carrying no vocabulary keyword at all, with pre-filled
content, as a primary-adapter result could look after extraction. -/
def irrelevantArticle : Article :=
  { title := "qqq", url := "u", date := "d", summary := "qqq", source := "Bogus",
    content := "xyzzy", relevance_score := none }

/-- A scored article, as the filter hands it to the renderer. -/
def scoredArticleA : Article :=
  { title := "A-title", url := "a-url", date := "2024-01-01", summary := "a-sum",
    source := "SrcA", content := "ca", relevance_score := some 1 }

/-- A second scored article. -/
def scoredArticleB : Article :=
  { title := "B-title", url := "b-url", date := "2024-01-02", summary := "b-sum",
    source := "SrcB", content := "cb", relevance_score := some (Rat.divInt 8 10) }

/-- An unscored article (no `relevance_score` key). -/
def unscoredArticle : Article :=
  { title := "U-title", url := "u-url", date := "2024-01-03", summary := "u-sum",
    source := "SrcU", content := "cu", relevance_score := none }

/-!
## Theorems

First the bridge lemmas between the kernel-evaluable rational operations
and Mathlib's field/lattice operations, then helper lemmas, then one
theorem per claim (with witnesses / counterexamples).
-/

theorem ratMin_eq_min (a b : ℚ) : ratMin a b = min a b := by
  simp [ratMin, min_def]

theorem ratMax_eq_max (a b : ℚ) : ratMax a b = max a b := by
  simp [ratMax, max_def]

theorem rawScore_eq_div (a : Article) :
    rawScore a = (keywordMatches a : ℚ) / (keywords.length : ℚ) := by
  rw [rawScore, Rat.divInt_eq_div]
  push_cast
  rfl

theorem triple_eq (q : ℚ) : triple q = q * 3 := by
  rw [triple, Rat.divInt_eq_div]
  push_cast
  rw [mul_div_right_comm, Rat.num_div_den]

theorem demoFloor_eq : demoFloor = 8/10 := by
  rw [demoFloor, Rat.divInt_eq_div]; norm_num

theorem relevanceThreshold_eq : relevanceThreshold = 7/10 := by
  rw [relevanceThreshold, Rat.divInt_eq_div]; norm_num

/-- The scorer, re-expressed through Mathlib's field and lattice operations. -/
theorem keywordBasedRelevance_eq (a : Article) :
    keywordBasedRelevance a
      = min ((if isDemoSource a then max (rawScore a) ((8:ℚ)/10) else rawScore a) * 3) 1 := by
  rw [keywordBasedRelevance, ratMin_eq_min, triple_eq]
  simp only [ratMax_eq_max, demoFloor_eq]

theorem rawScore_nonneg (a : Article) : 0 ≤ rawScore a := by
  rw [rawScore_eq_div]
  positivity

/-- A start segment of a list is in particular a contained segment. -/
theorem containedOfStartSegment {l₁ l₂ : List Char} (h : l₁ <+: l₂) : l₁ <:+: l₂ := by
  obtain ⟨t, ht⟩ := h
  exact ⟨[], t, by simpa using ht⟩

/-- Appending to `content` only extends the scorer's inspected text. -/
theorem relevanceText_extends (a : Article) (s : String) :
    relevanceText a <+: relevanceText { a with content := a.content ++ s } := by
  refine ⟨(s.data.take (1000 - a.content.data.length)).map Char.toLower, ?_⟩
  rw [relevanceText, relevanceText]
  simp only [String.data_append, List.take_append_eq_append_take]
  simp [List.map_append, List.append_assoc]

/-- A longer inspected text can only match more keywords. -/
theorem keywordMatches_le_of_extends {a b : Article}
    (h : relevanceText a <+: relevanceText b) :
    keywordMatches a ≤ keywordMatches b := by
  rw [keywordMatches, keywordMatches, ← List.countP_eq_length_filter,
    ← List.countP_eq_length_filter]
  refine List.countP_mono_left fun k _ hk => ?_
  rw [decide_eq_true_eq] at hk ⊢
  exact hk.trans (containedOfStartSegment h)

/-- C3: for every document (any combination of title, summary, content and
source strings, empty ones included), the relevance score returned by
`_keyword_based_relevance` lies in the closed interval [0, 1]. -/
theorem relevanceScore_bounded (a : Article) :
    0 ≤ keywordBasedRelevance a ∧ keywordBasedRelevance a ≤ 1 := by
  have hraw := rawScore_nonneg a
  have hs : 0 ≤ (if isDemoSource a then max (rawScore a) ((8:ℚ)/10) else rawScore a) := by
    split
    · exact le_max_of_le_left hraw
    · exact hraw
  rw [keywordBasedRelevance_eq]
  exact ⟨le_min (mul_nonneg hs (by norm_num)) zero_le_one, min_le_right _ _⟩

/-- C4: any document whose source contains "demo" case-insensitively gets a
final relevance score of at least 0.8: the 0.8 floor is applied to the raw
score before the `min(score * 3, 1.0)` boost. -/
theorem demoSource_floor (a : Article)
    (h : "demo".data <:+: lowerChars a.source) :
    (8:ℚ)/10 ≤ keywordBasedRelevance a := by
  rw [keywordBasedRelevance_eq, if_pos (show isDemoSource a from h)]
  refine le_min ?_ (by norm_num)
  have hmax : (8:ℚ)/10 ≤ max (rawScore a) ((8:ℚ)/10) := le_max_right _ _
  linarith

theorem demoSource_floor_witness :
    ("demo".data <:+: lowerChars
        (Article.source { nistTitledArticle with source := "NIST CSRC (Demo)" }))
      ∧ (8:ℚ)/10 ≤ keywordBasedRelevance
          { nistTitledArticle with source := "NIST CSRC (Demo)" } :=
  ⟨by decide, demoSource_floor _ (by decide)⟩

/-- C5: appending one more occurrence of a vocabulary keyword to a
document's content never decreases the raw score `matches / len(keywords)`
(the scorer inspects title, summary and the first 1000 characters of
content, and counts distinct matching keywords). -/
theorem rawScore_monotone_keyword_append (a : Article) (k : String)
    (_hk : k ∈ keywords) :
    rawScore a ≤ rawScore { a with content := a.content ++ k } := by
  rw [rawScore_eq_div, rawScore_eq_div]
  have hm : (keywordMatches a : ℚ)
      ≤ (keywordMatches { a with content := a.content ++ k } : ℚ) := by
    exact_mod_cast keywordMatches_le_of_extends (relevanceText_extends a k)
  gcongr

theorem rawScore_monotone_keyword_append_witness :
    "cloud" ∈ keywords
      ∧ rawScore nistTitledArticle
          ≤ rawScore { nistTitledArticle with
              content := nistTitledArticle.content ++ "cloud" } :=
  ⟨by decide, rawScore_monotone_keyword_append nistTitledArticle "cloud" (by decide)⟩

/-- C6: the relevance filter retains exactly the input documents whose
score strictly exceeds 0.7, in input order, each annotated with its
relevance score. -/
theorem filter_retains_exactly_above_threshold (articles : List Article) :
    filter_it_relevant_content articles
      = (articles.filter (fun a => decide ((7:ℚ)/10 < keywordBasedRelevance a))).map
          (fun a => { a with relevance_score := some (keywordBasedRelevance a) }) := by
  induction articles with
  | nil => rfl
  | cons a rest ih =>
      rw [filter_it_relevant_content, relevanceThreshold_eq]
      by_cases h : (7:ℚ)/10 < keywordBasedRelevance a
      · rw [if_pos h, List.filter_cons_of_pos (by simpa using h), List.map_cons, ih]
      · rw [if_neg h, List.filter_cons_of_neg (by simpa using h), ih]

/-- C7: a document whose content is already non-empty passes through the
extractor unchanged; the result does not depend on the fetch collaborator,
i.e. no network fetch is made for that document. -/
theorem extract_passthrough_prefilled (fetch : Article → String) (a : Article)
    (h : a.content ≠ "") :
    extract_content fetch [a] = [a] := by
  rw [extract_content, if_pos h, extract_content]

theorem extract_passthrough_prefilled_witness :
    (Article.content irrelevantArticle ≠ "")
      ∧ extract_content (fun _ => "FETCHED") [irrelevantArticle] = [irrelevantArticle] :=
  ⟨by decide, extract_passthrough_prefilled (fun _ => "FETCHED") irrelevantArticle (by decide)⟩

/-- When every primary-adapter call yields zero results, the accumulation
loop returns its accumulator unchanged. -/
theorem csrcSearchLoop_of_empty (csrc : String → ℕ → List Article)
    (hc : ∀ t n, csrc t n = []) (maxResults : ℕ) :
    ∀ ts acc, csrcSearchLoop csrc maxResults ts acc = acc := by
  intro ts
  induction ts with
  | nil => intro acc; rfl
  | cons t ts ih =>
      intro acc
      rw [csrcSearchLoop]
      simp only [hc, List.append_nil]
      split
      · rfl
      · exact ih acc

/-- With the primary and secondary adapters both yielding zero results and
`maxResults > 0`, the aggregator returns exactly the first `maxResults`
demo articles. -/
theorem search_nist_updates_fallback_only (csrc : String → ℕ → List Article)
    (google : Option (Option String → ℕ → List Article))
    (topic : Option String) (maxResults : ℕ)
    (hpos : 0 < maxResults)
    (hc : ∀ t n, csrc t n = [])
    (hg : ∀ g, google = some g → ∀ t n, g t n = []) :
    search_nist_updates csrc google topic maxResults
      = demoArticles.take maxResults := by
  have hloop := csrcSearchLoop_of_empty csrc hc maxResults
    ((NIST_SEARCH_TERMS ++ topic.toList).take 3) []
  cases google with
  | none =>
      simp [search_nist_updates, hloop, hpos, getDemoNistData, List.take_take]
  | some g =>
      have hg2 : ∀ t n, g t n = [] := hg g rfl
      simp [search_nist_updates, hloop, hg2, hpos, getDemoNistData, List.take_take]

/-- C1: for every `maxResults > 0`, when the primary scraped adapter and
the secondary search adapter each yield zero results (so only the demo
fallback can supply documents), `search_nist_updates` returns exactly
`min(maxResults, 3)` documents, 3 being the size of the built-in demo
corpus. -/
theorem aggregator_fallback_count (csrc : String → ℕ → List Article)
    (google : Option (Option String → ℕ → List Article))
    (topic : Option String) (maxResults : ℕ)
    (hpos : 0 < maxResults)
    (hc : ∀ t n, csrc t n = [])
    (hg : ∀ g, google = some g → ∀ t n, g t n = []) :
    (search_nist_updates csrc google topic maxResults).length = min maxResults 3 := by
  rw [search_nist_updates_fallback_only csrc google topic maxResults hpos hc hg,
    List.length_take]
  rfl

theorem aggregator_fallback_count_witness :
    0 < 5
      ∧ (∀ t n, (fun (_ : String) (_ : ℕ) => ([] : List Article)) t n = [])
      ∧ (search_nist_updates (fun _ _ => []) none none 5).length = min 5 3 :=
  ⟨by decide, fun _ _ => rfl,
    aggregator_fallback_count (fun _ _ => []) none none 5 (by decide)
      (fun _ _ => rfl) (fun g hg => nomatch hg)⟩

/-- C8: for every pair of scored documents A and B (whatever their scores
or dates), the renderer places A's finding block before B's and A's
citation entry before B's: the output is literally the header, then the
finding blocks in input order, then the fixed boilerplate, then the
citation lines in input order, then the footer. -/
theorem render_preserves_input_order (clock : Clock) (A B : Article) (x y : ℚ)
    (hA : A.relevance_score = some x) (hB : B.relevance_score = some y) :
    generateFallbackSummary clock [A, B]
      = some (headerStr clock 2
          ++ (findingBlockWith 1 A x ++ findingBlockWith 2 B y)
          ++ recommendationsStr
          ++ (citationLine 1 A ++ citationLine 2 B)
          ++ footerStr clock) := by
  rw [generateFallbackSummary, renderFindings, hA, renderFindings, hB, renderFindings]
  simp [citationsFrom, String.append_assoc]

theorem render_preserves_input_order_witness :
    Article.relevance_score scoredArticleA = some 1
      ∧ Article.relevance_score scoredArticleB = some (Rat.divInt 8 10)
      ∧ generateFallbackSummary { iso := "i", fmt := "f" } [scoredArticleA, scoredArticleB]
          = some (headerStr { iso := "i", fmt := "f" } 2
              ++ (findingBlockWith 1 scoredArticleA 1
                  ++ findingBlockWith 2 scoredArticleB (Rat.divInt 8 10))
              ++ recommendationsStr
              ++ (citationLine 1 scoredArticleA ++ citationLine 2 scoredArticleB)
              ++ footerStr { iso := "i", fmt := "f" }) :=
  ⟨rfl, rfl, render_preserves_input_order { iso := "i", fmt := "f" }
    scoredArticleA scoredArticleB 1 (Rat.divInt 8 10) rfl rfl⟩

/-- C9 counterexample: the renderer's output embeds readings of the wall
clock (header and footer timestamps), so two invocations of
`generate_summary` on the same document list need not produce the same
string — here, two invocations whose clock readings differ on the empty
document list produce different output. -/
theorem render_two_run_determinism_cex :
    generate_summary { iso := "2024-01-01T00:00:00", fmt := "t" } []
      ≠ generate_summary { iso := "2024-01-02T00:00:00", fmt := "t" } [] := by
  decide

/-- C9 (amended): the renderer performs no I/O other than reading the wall
clock — its output is a function of the clock reading and the document list
alone, so two invocations on the same list that read the same clock value
produce the same output string. -/
theorem render_deterministic_given_clock (c₁ c₂ : Clock) (docs : List Article)
    (h : c₁ = c₂) :
    generate_summary c₁ docs = generate_summary c₂ docs := by
  rw [h]

theorem render_deterministic_given_clock_witness :
    ({ iso := "i", fmt := "f" } : Clock) = { iso := "i", fmt := "f" }
      ∧ generate_summary { iso := "i", fmt := "f" } [scoredArticleA]
          = generate_summary { iso := "i", fmt := "f" } [scoredArticleA] :=
  ⟨rfl, render_deterministic_given_clock { iso := "i", fmt := "f" }
    { iso := "i", fmt := "f" } [scoredArticleA] rfl⟩

/-- Rendering the finding blocks fails as soon as some article lacks a
relevance score. -/
theorem renderFindings_eq_none {docs : List Article}
    (h : ∃ a ∈ docs, a.relevance_score = none) :
    ∀ i, renderFindings i docs = none := by
  induction docs with
  | nil => simp at h
  | cons a rest ih =>
      intro i
      obtain ⟨b, hb, hbn⟩ := h
      rcases List.mem_cons.mp hb with rfl | hbrest
      · rw [renderFindings, hbn]
      · rw [renderFindings]
        cases ha : a.relevance_score with
        | none => rfl
        | some x => rw [ih ⟨b, hbrest, hbn⟩ (i + 1)]

/-- C10: the renderer raises (models as `none`) on every input list that
contains at least one document lacking `relevance_score`: the `:.2f`
fixed-point format is applied to the string default "N/A", so rendering is
total only on fully scored document lists. -/
theorem render_fails_on_unscored (clock : Clock) (docs : List Article)
    (h : ∃ a ∈ docs, a.relevance_score = none) :
    generate_summary clock docs = none := by
  rw [generate_summary, generateFallbackSummary, renderFindings_eq_none h 1]

theorem render_fails_on_unscored_witness :
    (∃ a ∈ [scoredArticleA, unscoredArticle], Article.relevance_score a = none)
      ∧ generate_summary { iso := "i", fmt := "f" } [scoredArticleA, unscoredArticle]
          = none :=
  ⟨⟨unscoredArticle, by simp, rfl⟩,
    render_fails_on_unscored { iso := "i", fmt := "f" } [scoredArticleA, unscoredArticle]
      ⟨unscoredArticle, by simp, rfl⟩⟩

/-- C2 (evaluation at the failing inputs): both pipeline-level emptiness
outcomes reach the caller as the generic 500 server-error condition, not as
distinct 404 not-found conditions: the broad `except Exception` of
`run_workflow` catches the two `HTTPException(404, ...)` raised inside the
`try:` block and re-raises them as `HTTPException(500, str(e))`.  First
input: a request with `max_articles = 0` and no reachable source, so zero
documents are retrieved.  Second input: the only retrieved article scores
0, so zero documents pass the relevance filter. -/
theorem workflow_emptiness_maps_to_500 :
    run_workflow (fun _ _ => []) none (fun _ => "") none { iso := "i", fmt := "f" } none 0
        = .error (.httpExc 500 "404: No NIST updates found")
      ∧ run_workflow (fun _ _ => [irrelevantArticle]) none (fun _ => "") none
            { iso := "i", fmt := "f" } none 1
        = .error (.httpExc 500 "404: No relevant articles found for IT organizations") := by
  exact ⟨by decide, by decide⟩

example : keywordBasedRelevance nistTitledArticle = Rat.divInt 1 10 := by decide

example : keywordBasedRelevance
    { nistTitledArticle with source := "NIST CSRC (Demo)" } = 1 := by decide

example : filter_it_relevant_content [nistTitledArticle] = [] := by decide
